import Mathlib

/-!
# Verification of the easygo AWS bootstrap core (`pkg/egaws/eqaws.go`)

Shallow embedding of the credential-and-secrets bootstrap sequence:
`NewEGAwsClient` (configuration resolution, optional role assumption with a
caching credential provider, identity verification, secret-store client
construction) and `GetLatestJsonSecretValue` (payload selection and JSON
decoding).  The AWS SDK collaborators (config loader, STS, Secrets Manager)
are modelled at their call boundary as environment functions; the values the
source code constructs from their answers are embedded faithfully.
-/

namespace EGAws

/-- Go error values as produced by this package: `fmt.Errorf("msg: %w", err)`
and `eris.Wrap(err, "msg")` both attach a message while keeping the wrapped
cause (`wrap`); `eris.New(msg)` and collaborator-originated errors are fresh
errors (`new`). -/
inductive EGError where
  | wrap (msg : String) (cause : EGError)
  | new (msg : String)
deriving DecidableEq, Repr

/-- The four stages of the bootstrap sequence, in source order:
`config.LoadDefaultConfig` (resolve), the `AssumeRoleArn` block (provision,
a no-op exchange-wise when the identifier is empty), `GetCallerIdentity`
(verify), `secretsmanager.NewFromConfig` (build the secret-store client). -/
inductive Stage where
  | resolve
  | provision
  | verify
  | buildSecrets
deriving DecidableEq, Repr

/-- One entry of the `configOpts` slice built by `NewEGAwsClient`
(`config.WithRegion`, `config.WithRetryMaxAttempts`, `config.WithRetryMode`,
`config.WithHTTPClient`). -/
inductive ConfigOpt where
  | withRegion (region : String)
  | withRetryMaxAttempts (n : Int)
  | withRetryMode (mode : String)
  | withHTTPClient
deriving DecidableEq, Repr

/-- `NewEGAwsClientArgs`.  `aws.RetryMode` is a string type; the Go `int`
`RetryMaxAttempts` is an `Int`; the `*http.Client` pointer is modelled by
whether it is non-nil. -/
structure NewEGAwsClientArgs where
  region : String
  assumeRoleArn : String
  retryMaxAttempts : Int
  retryMode : String
  hasHTTPClient : Bool
deriving DecidableEq, Repr

/-- The `configOpts` slice assembled in `NewEGAwsClient` (eqaws.go:41-60):
always `WithRegion`; `WithRetryMaxAttempts` only when `RetryMaxAttempts > 0`;
`WithRetryMode` only when `RetryMode != ""`; `WithHTTPClient` only when the
client is non-nil. -/
def buildConfigOpts (args : NewEGAwsClientArgs) : List ConfigOpt :=
  [ConfigOpt.withRegion args.region]
    ++ (if args.retryMaxAttempts > 0 then [ConfigOpt.withRetryMaxAttempts args.retryMaxAttempts] else [])
    ++ (if args.retryMode ≠ "" then [ConfigOpt.withRetryMode args.retryMode] else [])
    ++ (if args.hasHTTPClient then [ConfigOpt.withHTTPClient] else [])

/-- The explicit retry cap the resolved configuration ends up with: the last
`WithRetryMaxAttempts` option applied, `none` when no such option was given
(the SDK then uses its provider default). -/
def effectiveRetryCap (opts : List ConfigOpt) : Option Int :=
  opts.foldl
    (fun acc opt =>
      match opt with
      | ConfigOpt.withRetryMaxAttempts n => some n
      | _ => acc)
    none

/-- The credentials carried by a successful `sts.AssumeRole` response
(`result.Credentials`): in the SDK each of the four fields is a pointer and
may be nil. -/
structure AssumeRoleCredentials where
  accessKeyId : Option String
  secretAccessKey : Option String
  sessionToken : Option String
  expiration : Option Nat
deriving DecidableEq, Repr

/-- `aws.Credentials` as constructed by the closure at eqaws.go:79-84.  The
Go struct literal sets `AccessKeyID`, `SecretAccessKey`, `SessionToken` and
`Expires`; `CanExpire` is left at its zero value `false`. -/
structure Credentials where
  accessKeyID : String
  secretAccessKey : String
  sessionToken : String
  canExpire : Bool
  expires : Nat
deriving DecidableEq, Repr

/-- `aws.Credentials.Expired`: credentials count as expired only when
`CanExpire` is set and the expiry time has been reached. -/
def Credentials.expired (c : Credentials) (now : Nat) : Bool :=
  c.canExpire && decide (c.expires ≤ now)

/-- The `aws.CredentialsProviderFunc` closure installed after role assumption
(eqaws.go:78-85).  It dereferences the four pointer fields of the captured
`result.Credentials` without nil checks — `none` models the panic on a nil
dereference — and otherwise returns the credential values with a nil error. -/
def credentialsProviderFunc (src : AssumeRoleCredentials) :
    Option (Except EGError Credentials) :=
  match src.accessKeyId, src.secretAccessKey, src.sessionToken, src.expiration with
  | some ak, some sk, some st, some exp =>
      some (Except.ok
        { accessKeyID := ak, secretAccessKey := sk, sessionToken := st
          canExpire := false, expires := exp })
  | _, _, _, _ => none

/-- The credential source held by an `aws.Config`: the ambient default chain
produced by `config.LoadDefaultConfig`, or the `aws.NewCredentialsCache`
wrapping the assume-role closure installed at eqaws.go:78. -/
inductive CredSource where
  | ambient
  | assumedCache (src : AssumeRoleCredentials)
deriving DecidableEq, Repr

/-- The resolved `aws.Config`: the options it was loaded with and its
credential source. -/
structure AwsConfig where
  opts : List ConfigOpt
  credentials : CredSource
deriving DecidableEq, Repr

/-- `sts.GetCallerIdentityOutput`: account and principal ARN. -/
structure Identity where
  account : String
  arn : String
deriving DecidableEq, Repr

/-- State of the `aws.CredentialsCache` wrapping the assume-role closure:
the captured `result.Credentials` and the cached credential value, initially
absent. -/
structure CredentialsCache where
  source : AssumeRoleCredentials
  cached : Option Credentials
deriving DecidableEq, Repr

/-- A fresh `aws.NewCredentialsCache` around the closure over `src`. -/
def CredentialsCache.init (src : AssumeRoleCredentials) : CredentialsCache :=
  { source := src, cached := none }

/-- The cache invoking its underlying provider (on a miss or on expiry):
runs the closure and stores a successful result.  The last component counts
role-assumption exchanges issued by this step; the closure is a pure function
over the captured bootstrap-time response and issues none. -/
def CredentialsCache.refresh (c : CredentialsCache) :
    Option (Except EGError Credentials) × CredentialsCache × Nat :=
  match credentialsProviderFunc c.source with
  | none => (none, c, 0)
  | some (Except.error e) => (some (Except.error e), c, 0)
  | some (Except.ok creds) => (some (Except.ok creds), { c with cached := some creds }, 0)

/-- One credential request against the cache (`CredentialsCache.Retrieve`):
return the cached value while it is present and unexpired, otherwise invoke
the underlying provider.  `none` in the first component models a panic inside
the provider closure; the `Nat` counts role-assumption exchanges issued. -/
def CredentialsCache.retrieve (c : CredentialsCache) (now : Nat) :
    Option (Except EGError Credentials) × CredentialsCache × Nat :=
  match c.cached with
  | some creds =>
      if creds.expired now then c.refresh else (some (Except.ok creds), c, 0)
  | none => c.refresh

/-- A sequence of credential requests at the given times, threading the cache
state and accumulating the exchange count. -/
def CredentialsCache.retrieveTimes (c : CredentialsCache) :
    List Nat → List (Option (Except EGError Credentials)) × Nat
  | [] => ([], 0)
  | t :: ts =>
      match c.retrieve t with
      | (r, c', n) =>
          match c'.retrieveTimes ts with
          | (rs, m) => (r :: rs, n + m)

/-- The collaborator surface `NewEGAwsClient` calls into:
`config.LoadDefaultConfig` (which on success yields a configuration carrying
the ambient default credential chain; only its failure is environmental),
`sts.Client.AssumeRole` (issued through the client bound to the given
configuration), and `sts.Client.GetCallerIdentity` (issued through the
client bound to the given configuration). -/
structure AwsEnv where
  loadDefaultConfig : List ConfigOpt → Option EGError
  assumeRole : AwsConfig → String → Except EGError AssumeRoleCredentials
  getCallerIdentity : AwsConfig → Except EGError Identity

/-- `EGAwsClient`: the resolved configuration plus the two capability
clients; each SDK client is represented by the configuration it was built
from (`sts.NewFromConfig` / `secretsmanager.NewFromConfig`). -/
structure EGAwsClient where
  cfg : AwsConfig
  stsClient : AwsConfig
  secretsClient : AwsConfig
deriving DecidableEq, Repr

/-- The outcome of one `NewEGAwsClient` call: the returned value or error,
the stages reached in order, and the number of role-assumption exchanges
issued with the identity service. -/
structure BootResult where
  result : Except EGError EGAwsClient
  trace : List Stage
  exchanges : Nat

/-- The tail of `NewEGAwsClient` from eqaws.go:90-103: `GetCallerIdentity`
through the current STS client, then build the Secrets Manager client from
the configuration and return the bundle.  `n` is the number of exchanges
already issued. -/
def verifyAndBuild (env : AwsEnv) (cfg stsClient : AwsConfig) (n : Nat) : BootResult :=
  match env.getCallerIdentity stsClient with
  | Except.error e =>
      { result := Except.error (EGError.wrap "failed to get caller identity" e)
        trace := [Stage.resolve, Stage.provision, Stage.verify]
        exchanges := n }
  | Except.ok _id =>
      { result := Except.ok { cfg := cfg, stsClient := stsClient, secretsClient := cfg }
        trace := [Stage.resolve, Stage.provision, Stage.verify, Stage.buildSecrets]
        exchanges := n }

/-- `NewEGAwsClient` (eqaws.go:39-103): build the option slice, load the
default configuration, build an STS client from it; when `AssumeRoleArn` is
non-empty, perform one `AssumeRole` exchange through that client, replace
the configuration's credential source with a credentials cache over the
closure capturing the response, and rebuild the STS client; then verify the
caller identity and build the secret-store client. -/
def NewEGAwsClient (env : AwsEnv) (args : NewEGAwsClientArgs) : BootResult :=
  let configOpts := buildConfigOpts args
  match env.loadDefaultConfig configOpts with
  | some e =>
      { result := Except.error (EGError.wrap "failed to load AWS config" e)
        trace := [Stage.resolve]
        exchanges := 0 }
  | none =>
      let cfg : AwsConfig := { opts := configOpts, credentials := CredSource.ambient }
      if args.assumeRoleArn = "" then
        verifyAndBuild env cfg cfg 0
      else
        match env.assumeRole cfg args.assumeRoleArn with
        | Except.error e =>
            { result := Except.error (EGError.wrap "failed to assume role" e)
              trace := [Stage.resolve, Stage.provision]
              exchanges := 1 }
        | Except.ok src =>
            let cfg' : AwsConfig := { cfg with credentials := CredSource.assumedCache src }
            verifyAndBuild env cfg' cfg' 1

/-- JSON values (the tree `encoding/json` decodes into a generic
destination).  Number tokens are kept verbatim, uninterpreted. -/
inductive Json where
  | null
  | bool (b : Bool)
  | num (raw : String)
  | str (s : String)
  | arr (items : List Json)
  | obj (fields : List (String × Json))
deriving Repr

/-- JSON insignificant whitespace. -/
def skipWs : List Char → List Char
  | c :: cs =>
      if c = ' ' ∨ c = '\t' ∨ c = '\n' ∨ c = '\r' then skipWs cs else c :: cs
  | [] => []

/-- Hexadecimal digit test for `\uXXXX` escapes. -/
def isHexDigit (c : Char) : Bool :=
  c.isDigit || ('a' ≤ c && c ≤ 'f') || ('A' ≤ c && c ≤ 'F')

/-- The character denoted by a single-character JSON escape, `none` for an
invalid escape. -/
def escapeChar (c : Char) : Option Char :=
  if c = '"' then some '"'
  else if c = '\\' then some '\\'
  else if c = '/' then some '/'
  else if c = 'b' then some (Char.ofNat 8)
  else if c = 'f' then some (Char.ofNat 12)
  else if c = 'n' then some '\n'
  else if c = 'r' then some '\r'
  else if c = 't' then some '\t'
  else none

/-- Body of a JSON string literal after the opening quote: content up to the
closing quote plus the remaining input.  Unescaped control characters are
rejected; `\uXXXX` escapes are validated, their decoded code point kept
abstract as `u`. -/
def parseStringBody : List Char → Option (List Char × List Char)
  | [] => none
  | '"' :: rest => some ([], rest)
  | '\\' :: 'u' :: h1 :: h2 :: h3 :: h4 :: rest =>
      if isHexDigit h1 && isHexDigit h2 && isHexDigit h3 && isHexDigit h4 then
        (parseStringBody rest).map (fun p => ('u' :: p.1, p.2))
      else none
  | '\\' :: c :: rest =>
      match escapeChar c with
      | some d => (parseStringBody rest).map (fun p => (d :: p.1, p.2))
      | none => none
  | c :: rest =>
      if c.toNat < 32 then none
      else (parseStringBody rest).map (fun p => (c :: p.1, p.2))

/-- Fraction part of a JSON number (`.digits`), appended to the token read
so far; absent fraction is allowed. -/
def parseFrac (acc : List Char) (cs : List Char) : Option (List Char × List Char) :=
  match cs with
  | '.' :: rest =>
      let ds := rest.takeWhile Char.isDigit
      if ds.isEmpty then none
      else some (acc ++ '.' :: ds, rest.dropWhile Char.isDigit)
  | _ => some (acc, cs)

/-- Exponent part of a JSON number (`[eE][+-]?digits`), appended to the
token read so far; absent exponent is allowed. -/
def parseExp (acc : List Char) (cs : List Char) : Option (List Char × List Char) :=
  match cs with
  | e :: rest =>
      if e = 'e' ∨ e = 'E' then
        match rest with
        | '+' :: r =>
            let ds := r.takeWhile Char.isDigit
            if ds.isEmpty then none
            else some (acc ++ e :: '+' :: ds, r.dropWhile Char.isDigit)
        | '-' :: r =>
            let ds := r.takeWhile Char.isDigit
            if ds.isEmpty then none
            else some (acc ++ e :: '-' :: ds, r.dropWhile Char.isDigit)
        | _ =>
            let ds := rest.takeWhile Char.isDigit
            if ds.isEmpty then none
            else some (acc ++ e :: ds, rest.dropWhile Char.isDigit)
      else some (acc, cs)
  | [] => some (acc, cs)

/-- A JSON number token: `-?(0|[1-9][0-9]*)(\.[0-9]+)?([eE][+-]?[0-9]+)?`. -/
def parseNumber (cs : List Char) : Option (String × List Char) :=
  let intPart : List Char → List Char → Option (List Char × List Char) :=
    fun neg cs1 =>
      match cs1 with
      | '0' :: rest => some (neg ++ ['0'], rest)
      | c :: rest =>
          if c.isDigit then
            some (neg ++ c :: rest.takeWhile Char.isDigit, rest.dropWhile Char.isDigit)
          else none
      | [] => none
  let start : Option (List Char × List Char) :=
    match cs with
    | '-' :: rest => intPart ['-'] rest
    | _ => intPart [] cs
  match start with
  | none => none
  | some (acc, cs1) =>
      match parseFrac acc cs1 with
      | none => none
      | some (acc2, cs2) =>
          match parseExp acc2 cs2 with
          | none => none
          | some (acc3, cs3) => some (String.mk acc3, cs3)

mutual

/-- One JSON value at the head of the (whitespace-skipped) input; the fuel
bounds nesting depth. -/
def parseValue : Nat → List Char → Option (Json × List Char)
  | 0, _ => none
  | fuel + 1, cs =>
      match cs with
      | 'n' :: 'u' :: 'l' :: 'l' :: rest => some (Json.null, rest)
      | 't' :: 'r' :: 'u' :: 'e' :: rest => some (Json.bool true, rest)
      | 'f' :: 'a' :: 'l' :: 's' :: 'e' :: rest => some (Json.bool false, rest)
      | '"' :: rest =>
          (parseStringBody rest).map (fun p => (Json.str (String.mk p.1), p.2))
      | '[' :: rest =>
          match skipWs rest with
          | ']' :: r => some (Json.arr [], r)
          | cs1 => (parseItems fuel cs1).map (fun p => (Json.arr p.1, p.2))
      | '{' :: rest =>
          match skipWs rest with
          | '}' :: r => some (Json.obj [], r)
          | cs1 => (parseMembers fuel cs1).map (fun p => (Json.obj p.1, p.2))
      | _ => (parseNumber cs).map (fun p => (Json.num p.1, p.2))

/-- Comma-separated array items up to and including the closing `]`. -/
def parseItems : Nat → List Char → Option (List Json × List Char)
  | 0, _ => none
  | fuel + 1, cs =>
      match parseValue fuel cs with
      | none => none
      | some (v, cs1) =>
          match skipWs cs1 with
          | ',' :: r =>
              match parseItems fuel (skipWs r) with
              | none => none
              | some (vs, r1) => some (v :: vs, r1)
          | ']' :: r => some ([v], r)
          | _ => none

/-- Comma-separated object members up to and including the closing `}`. -/
def parseMembers : Nat → List Char → Option (List (String × Json) × List Char)
  | 0, _ => none
  | fuel + 1, cs =>
      match cs with
      | '"' :: rest =>
          match parseStringBody rest with
          | none => none
          | some (key, cs1) =>
              match skipWs cs1 with
              | ':' :: cs2 =>
                  match parseValue fuel (skipWs cs2) with
                  | none => none
                  | some (v, cs3) =>
                      match skipWs cs3 with
                      | ',' :: r =>
                          match parseMembers fuel (skipWs r) with
                          | none => none
                          | some (ms, r1) => some ((String.mk key, v) :: ms, r1)
                      | '}' :: r => some ([(String.mk key, v)], r)
                      | _ => none
              | _ => none
      | _ => none

end

/-- `json.Unmarshal` on a generic destination: the input must be exactly one
valid JSON document (possibly surrounded by whitespace); `none` models a
non-nil decode error.  The whole document is syntax-checked before any
decoding, so a malformed document produces an error without touching the
destination. -/
def jsonUnmarshal (s : String) : Option Json :=
  match parseValue (s.length + 1) (skipWs s.data) with
  | some (v, rest) => if skipWs rest = [] then some v else none
  | none => none

/-- The error value `encoding/json` reports for a document that fails its
validity check (e.g. `unexpected end of JSON input`). -/
def jsonSyntaxError : EGError := EGError.new "json syntax error"

/-- `secretsmanager.GetSecretValueOutput`: `SecretString` is a string
pointer, `SecretBinary` a byte slice (its bytes modelled as a string);
either may be nil/absent. -/
structure GetSecretValueOutput where
  secretString : Option String
  secretBinary : Option String
deriving Repr

/-- The tail of `GetLatestJsonSecretValue` (eqaws.go:152-157):
`json.Unmarshal(byteValue, result)`, wrapping a decode failure.  The pair
returned is (error result, destination value after the call). -/
def decodeByteValue (byteValue : String) (result : Json) : Except EGError Unit × Json :=
  match jsonUnmarshal byteValue with
  | none => (Except.error (EGError.wrap "failed to unmarshal byte value" jsonSyntaxError), result)
  | some v => (Except.ok (), v)

/-- `GetLatestJsonSecretValue` (eqaws.go:135-158) given the secret store's
response for the requested identifier: wrap a retrieval failure; select
`SecretString`'s bytes when non-nil, else `SecretBinary` when non-nil, else
fail with `secret found but value is empty`; then unmarshal into the
destination. -/
def GetLatestJsonSecretValue (resp : Except EGError GetSecretValueOutput) (result : Json) :
    Except EGError Unit × Json :=
  match resp with
  | Except.error e => (Except.error (EGError.wrap "failed to get secret value" e), result)
  | Except.ok output =>
      match output.secretString with
      | some s => decodeByteValue s result
      | none =>
          match output.secretBinary with
          | some b => decodeByteValue b result
          | none => (Except.error (EGError.new "secret found but value is empty"), result)

/-! Concrete fixtures used to instantiate the theorems. -/

/-- A caller identity for test environments. -/
def testIdentity : Identity :=
  { account := "123456789012", arn := "arn:aws:iam::123456789012:user/test" }

/-- An assume-role response with all four credential fields present. -/
def testSrc : AssumeRoleCredentials :=
  { accessKeyId := some "AKID", secretAccessKey := some "SECRET"
    sessionToken := some "TOKEN", expiration := some 100 }

/-- Environment where every collaborator call succeeds. -/
def testEnvOk : AwsEnv :=
  { loadDefaultConfig := fun _ => none
    assumeRole := fun _ _ => Except.ok testSrc
    getCallerIdentity := fun _ => Except.ok testIdentity }

/-- Environment where configuration loading fails. -/
def testEnvLoadFail : AwsEnv :=
  { testEnvOk with loadDefaultConfig := fun _ => some (EGError.new "no credential source") }

/-- Environment where only `GetCallerIdentity` fails; `AssumeRole` always
succeeds. -/
def testEnvVerifyFail : AwsEnv :=
  { testEnvOk with getCallerIdentity := fun _ => Except.error (EGError.new "access denied") }

/-- Arguments with no role assumption and all optional settings at their
zero values. -/
def testArgs : NewEGAwsClientArgs :=
  { region := "us-east-1", assumeRoleArn := "", retryMaxAttempts := 0
    retryMode := "", hasHTTPClient := false }

/-- Arguments requesting role assumption. -/
def testArgsAssume : NewEGAwsClientArgs :=
  { testArgs with assumeRoleArn := "arn:aws:iam::123456789012:role/helper" }

/-- The configuration resolution produces for `testArgs`. -/
def testCfg : AwsConfig :=
  { opts := buildConfigOpts testArgs, credentials := CredSource.ambient }

/-- The client handle `NewEGAwsClient testEnvOk testArgs` returns. -/
def testClient : EGAwsClient :=
  { cfg := testCfg, stsClient := testCfg, secretsClient := testCfg }

/-- The credential values the assume-role closure over `testSrc` yields. -/
def testCreds : Credentials :=
  { accessKeyID := "AKID", secretAccessKey := "SECRET", sessionToken := "TOKEN"
    canExpire := false, expires := 100 }

/-- The credential values the assume-role closure returns when the captured
response carries the fields `ak`, `sk`, `st`, `exp` (`CanExpire` stays at
its zero value). -/
def closureCredentials (ak sk st : String) (exp : Nat) : Credentials :=
  { accessKeyID := ak, secretAccessKey := sk, sessionToken := st
    canExpire := false, expires := exp }

/-! ## Theorems -/

/-- C8: the credential provider closure installed after role assumption
reads the four credential fields through unchecked pointer dereferences; it
is total (returns a value rather than panicking) exactly when the assume-role
response carries all four fields non-nil, it never returns a non-nil error,
and under the precondition it yields the dereferenced values. -/
theorem credentialsProviderFunc_total_iff_fields_present (src : AssumeRoleCredentials) :
    ((credentialsProviderFunc src).isSome ↔
      src.accessKeyId.isSome ∧ src.secretAccessKey.isSome ∧
        src.sessionToken.isSome ∧ src.expiration.isSome)
    ∧ (∀ r, credentialsProviderFunc src = some r → ∃ c, r = Except.ok c)
    ∧ (∀ ak sk st exp,
        src = { accessKeyId := some ak, secretAccessKey := some sk
                sessionToken := some st, expiration := some exp } →
        credentialsProviderFunc src =
          some (Except.ok
            { accessKeyID := ak, secretAccessKey := sk, sessionToken := st
              canExpire := false, expires := exp })) := by
  obtain ⟨ak, sk, st, exp⟩ := src
  cases ak <;> cases sk <;> cases st <;> cases exp <;>
    simp [credentialsProviderFunc]

/-- Witness for C8 at a fully populated assume-role response. -/
theorem credentialsProviderFunc_total_iff_fields_present_witness :
    credentialsProviderFunc testSrc = some (Except.ok testCreds) :=
  (credentialsProviderFunc_total_iff_fields_present testSrc).2.2
    "AKID" "SECRET" "TOKEN" 100 rfl

/-- C6: a strictly positive `RetryMaxAttempts` puts exactly that cap (no
clamping) into the resolved configuration via an explicit
`WithRetryMaxAttempts` option, while `0` applies no explicit cap (no such
option is present, the provider default applies); the two option lists are
distinguishable. -/
theorem retryMaxAttempts_exact_and_distinguishable (args : NewEGAwsClientArgs) :
    (0 < args.retryMaxAttempts →
      effectiveRetryCap (buildConfigOpts args) = some args.retryMaxAttempts
      ∧ ConfigOpt.withRetryMaxAttempts args.retryMaxAttempts ∈ buildConfigOpts args
      ∧ buildConfigOpts args ≠ buildConfigOpts { args with retryMaxAttempts := 0 })
    ∧ (args.retryMaxAttempts = 0 →
      effectiveRetryCap (buildConfigOpts args) = none
      ∧ ∀ n, ConfigOpt.withRetryMaxAttempts n ∉ buildConfigOpts args) := by
  constructor
  · intro hpos
    have hcap : effectiveRetryCap (buildConfigOpts args) = some args.retryMaxAttempts := by
      by_cases hm : args.retryMode = "" <;> by_cases hh : args.hasHTTPClient <;>
        simp [buildConfigOpts, effectiveRetryCap, hpos, hm, hh]
    have hmem : ConfigOpt.withRetryMaxAttempts args.retryMaxAttempts ∈ buildConfigOpts args := by
      by_cases hm : args.retryMode = "" <;> by_cases hh : args.hasHTTPClient <;>
        simp [buildConfigOpts, hpos, hm, hh]
    refine ⟨hcap, hmem, fun heq => ?_⟩
    have hnone : ∀ n, ConfigOpt.withRetryMaxAttempts n ∉
        buildConfigOpts { args with retryMaxAttempts := 0 } := by
      intro n
      by_cases hm : args.retryMode = "" <;> by_cases hh : args.hasHTTPClient <;>
        simp [buildConfigOpts, hm, hh]
    exact hnone args.retryMaxAttempts (heq ▸ hmem)
  · intro hzero
    constructor
    · by_cases hm : args.retryMode = "" <;> by_cases hh : args.hasHTTPClient <;>
        simp [buildConfigOpts, effectiveRetryCap, hzero, hm, hh]
    · intro n
      by_cases hm : args.retryMode = "" <;> by_cases hh : args.hasHTTPClient <;>
        simp [buildConfigOpts, hzero, hm, hh]

/-- Witness for C6 at `RetryMaxAttempts = 5` and `= 0`. -/
theorem retryMaxAttempts_exact_and_distinguishable_witness :
    (effectiveRetryCap (buildConfigOpts { testArgs with retryMaxAttempts := 5 }) = some 5
      ∧ ConfigOpt.withRetryMaxAttempts 5 ∈ buildConfigOpts { testArgs with retryMaxAttempts := 5 }
      ∧ buildConfigOpts { testArgs with retryMaxAttempts := 5 } ≠
          buildConfigOpts { { testArgs with retryMaxAttempts := 5 } with retryMaxAttempts := 0 })
    ∧ (effectiveRetryCap (buildConfigOpts testArgs) = none
      ∧ ∀ n, ConfigOpt.withRetryMaxAttempts n ∉ buildConfigOpts testArgs) :=
  ⟨(retryMaxAttempts_exact_and_distinguishable { testArgs with retryMaxAttempts := 5 }).1
      (by decide),
   (retryMaxAttempts_exact_and_distinguishable testArgs).2 rfl⟩

/-- C10: a negative `RetryMaxAttempts` fails the `> 0` guard just like `0`
does, so bootstrap behaves identically to `RetryMaxAttempts = 0` in every
environment: no explicit retry cap option is applied and the provider
default is used. -/
theorem negative_retryMaxAttempts_same_as_zero (env : AwsEnv) (args : NewEGAwsClientArgs)
    (h : args.retryMaxAttempts < 0) :
    NewEGAwsClient env args = NewEGAwsClient env { args with retryMaxAttempts := 0 } := by
  have hopts : buildConfigOpts args = buildConfigOpts { args with retryMaxAttempts := 0 } := by
    have h1 : ¬ (0 : Int) < args.retryMaxAttempts := by omega
    simp [buildConfigOpts, h1]
  simp [NewEGAwsClient, hopts]

/-- Witness for C10 at `RetryMaxAttempts = -3`. -/
theorem negative_retryMaxAttempts_same_as_zero_witness :
    NewEGAwsClient testEnvOk { testArgs with retryMaxAttempts := -3 } =
      NewEGAwsClient testEnvOk
        { { testArgs with retryMaxAttempts := -3 } with retryMaxAttempts := 0 } :=
  negative_retryMaxAttempts_same_as_zero testEnvOk
    { testArgs with retryMaxAttempts := -3 } (by decide)

/-- C3: payload selection — a non-nil `SecretString` (even the empty
string) is decoded; otherwise a non-nil `SecretBinary` is decoded; otherwise
the call fails with the `secret found but value is empty` error, which is
distinct from the wrapped retrieval (`not found`) error. -/
theorem payload_selection (out : GetSecretValueOutput) (dest : Json) :
    (∀ s, out.secretString = some s →
      GetLatestJsonSecretValue (Except.ok out) dest = decodeByteValue s dest)
    ∧ (∀ b, out.secretString = none → out.secretBinary = some b →
      GetLatestJsonSecretValue (Except.ok out) dest = decodeByteValue b dest)
    ∧ (out.secretString = none → out.secretBinary = none →
      GetLatestJsonSecretValue (Except.ok out) dest =
        (Except.error (EGError.new "secret found but value is empty"), dest))
    ∧ (∀ e, GetLatestJsonSecretValue (Except.error e) dest =
      (Except.error (EGError.wrap "failed to get secret value" e), dest))
    ∧ (∀ e, EGError.new "secret found but value is empty" ≠
      EGError.wrap "failed to get secret value" e) := by
  obtain ⟨ss, sb⟩ := out
  cases ss <;> cases sb <;> simp [GetLatestJsonSecretValue]

/-- Witness for C3: an empty-but-present `SecretString` is selected and
decoded, and the both-absent record yields the distinct empty-value error. -/
theorem payload_selection_witness :
    (GetLatestJsonSecretValue (Except.ok { secretString := some "", secretBinary := none })
        Json.null = decodeByteValue "" Json.null)
    ∧ (GetLatestJsonSecretValue (Except.ok { secretString := none, secretBinary := none })
        Json.null =
      (Except.error (EGError.new "secret found but value is empty"), Json.null)) :=
  ⟨(payload_selection { secretString := some "", secretBinary := none } Json.null).1 "" rfl,
   (payload_selection { secretString := none, secretBinary := none } Json.null).2.2.1 rfl rfl⟩

/-- C4: when the selected payload bytes are not a valid JSON document, the
call returns the wrapped decode error and the caller-supplied destination is
returned exactly as it was before the call. -/
theorem invalid_json_leaves_destination (out : GetSecretValueOutput) (dest : Json) (s : String)
    (hsel : out.secretString = some s ∨
      (out.secretString = none ∧ out.secretBinary = some s))
    (hbad : jsonUnmarshal s = none) :
    GetLatestJsonSecretValue (Except.ok out) dest =
      (Except.error (EGError.wrap "failed to unmarshal byte value" jsonSyntaxError), dest) := by
  obtain ⟨ss, sb⟩ := out
  rcases hsel with h | ⟨h1, h2⟩
  · simp only at h
    subst h
    simp [GetLatestJsonSecretValue, decodeByteValue, hbad]
  · simp only at h1 h2
    subst h1; subst h2
    simp [GetLatestJsonSecretValue, decodeByteValue, hbad]

/-- Witness for C4 at the malformed payload `not json`. -/
theorem invalid_json_leaves_destination_witness :
    GetLatestJsonSecretValue
        (Except.ok { secretString := some "not json", secretBinary := none })
        (Json.num "7") =
      (Except.error (EGError.wrap "failed to unmarshal byte value" jsonSyntaxError),
        Json.num "7") :=
  invalid_json_leaves_destination
    { secretString := some "not json", secretBinary := none } (Json.num "7") "not json"
    (Or.inl rfl) rfl

/-- C9: a present-but-empty `SecretString` is selected (regardless of the
binary field) and then fails JSON decoding, so the call returns the wrapped
decode error — never the `secret found but value is empty` error — and the
destination is unchanged. -/
theorem empty_string_secret_decode_error (sb : Option String) (dest : Json) :
    GetLatestJsonSecretValue
        (Except.ok { secretString := some "", secretBinary := sb }) dest =
      (Except.error (EGError.wrap "failed to unmarshal byte value" jsonSyntaxError), dest)
    ∧ EGError.wrap "failed to unmarshal byte value" jsonSyntaxError ≠
        EGError.new "secret found but value is empty" := by
  have hempty : jsonUnmarshal "" = none := rfl
  exact ⟨by simp [GetLatestJsonSecretValue, decodeByteValue, hempty], by simp⟩

/-- Witness for C9 with a populated binary field alongside the empty text
field. -/
theorem empty_string_secret_decode_error_witness :
    GetLatestJsonSecretValue
        (Except.ok { secretString := some "", secretBinary := some "{}" }) Json.null =
      (Except.error (EGError.wrap "failed to unmarshal byte value" jsonSyntaxError),
        Json.null) :=
  (empty_string_secret_decode_error (some "{}") Json.null).1

/-- C2: the bootstrap stages run strictly in the order resolve → provision →
verify → build-secrets (the reached trace is always a non-empty prefix of
that order), a Client Handle is returned exactly when all four stages ran,
and with collaborators that fail only on `GetCallerIdentity` (never on
`AssumeRole`) bootstrap still stops at verify with a wrapped error and no
handle. -/
theorem bootstrap_stage_order (env : AwsEnv) (args : NewEGAwsClientArgs) :
    (NewEGAwsClient env args).trace ≠ []
    ∧ (NewEGAwsClient env args).trace <+:
        [Stage.resolve, Stage.provision, Stage.verify, Stage.buildSecrets]
    ∧ ((∃ c, (NewEGAwsClient env args).result = Except.ok c) ↔
        (NewEGAwsClient env args).trace =
          [Stage.resolve, Stage.provision, Stage.verify, Stage.buildSecrets])
    ∧ (env.loadDefaultConfig (buildConfigOpts args) = none →
       (∀ cfg arn, ∃ src, env.assumeRole cfg arn = Except.ok src) →
       (∀ cfg, ∃ e, env.getCallerIdentity cfg = Except.error e) →
       (∃ e, (NewEGAwsClient env args).result =
          Except.error (EGError.wrap "failed to get caller identity" e))
       ∧ (NewEGAwsClient env args).trace = [Stage.resolve, Stage.provision, Stage.verify]) := by
  cases hl : env.loadDefaultConfig (buildConfigOpts args) with
  | some e =>
      refine ⟨by simp [NewEGAwsClient, hl], ?_, by simp [NewEGAwsClient, hl], ?_⟩
      · simp only [NewEGAwsClient, hl]
        exact ⟨[Stage.provision, Stage.verify, Stage.buildSecrets], rfl⟩
      · intro h _ _
        exact Option.noConfusion h
  | none =>
      by_cases harn : args.assumeRoleArn = ""
      · cases hv : env.getCallerIdentity
            { opts := buildConfigOpts args, credentials := CredSource.ambient } with
        | error e2 =>
            refine ⟨by simp [NewEGAwsClient, verifyAndBuild, hl, harn, hv], ?_,
              by simp [NewEGAwsClient, verifyAndBuild, hl, harn, hv], ?_⟩
            · simp only [NewEGAwsClient, verifyAndBuild, hl, harn, if_pos, hv]
              exact ⟨[Stage.buildSecrets], rfl⟩
            · intro _ _ _
              exact ⟨⟨e2, by simp [NewEGAwsClient, verifyAndBuild, hl, harn, hv]⟩,
                by simp [NewEGAwsClient, verifyAndBuild, hl, harn, hv]⟩
        | ok id =>
            refine ⟨by simp [NewEGAwsClient, verifyAndBuild, hl, harn, hv], ?_,
              by simp [NewEGAwsClient, verifyAndBuild, hl, harn, hv], ?_⟩
            · simp only [NewEGAwsClient, verifyAndBuild, hl, harn, if_pos, hv]
              exact ⟨[], rfl⟩
            · intro _ _ h3
              obtain ⟨e3, he3⟩ := h3
                { opts := buildConfigOpts args, credentials := CredSource.ambient }
              rw [hv] at he3
              cases he3
      · cases ha : env.assumeRole
            { opts := buildConfigOpts args, credentials := CredSource.ambient }
            args.assumeRoleArn with
        | error e2 =>
            refine ⟨by simp [NewEGAwsClient, hl, harn, ha], ?_,
              by simp [NewEGAwsClient, hl, harn, ha], ?_⟩
            · simp only [NewEGAwsClient, hl, harn, if_neg, ha]
              exact ⟨[Stage.verify, Stage.buildSecrets], rfl⟩
            · intro _ h2 _
              obtain ⟨src, hsrc⟩ := h2
                { opts := buildConfigOpts args, credentials := CredSource.ambient }
                args.assumeRoleArn
              rw [ha] at hsrc
              cases hsrc
        | ok src =>
            cases hv : env.getCallerIdentity
                { opts := buildConfigOpts args,
                  credentials := CredSource.assumedCache src } with
            | error e2 =>
                refine ⟨by simp [NewEGAwsClient, verifyAndBuild, hl, harn, ha, hv], ?_,
                  by simp [NewEGAwsClient, verifyAndBuild, hl, harn, ha, hv], ?_⟩
                · simp only [NewEGAwsClient, verifyAndBuild, hl, harn, if_neg, ha, hv]
                  exact ⟨[Stage.buildSecrets], rfl⟩
                · intro _ _ _
                  exact ⟨⟨e2, by simp [NewEGAwsClient, verifyAndBuild, hl, harn, ha, hv]⟩,
                    by simp [NewEGAwsClient, verifyAndBuild, hl, harn, ha, hv]⟩
            | ok id =>
                refine ⟨by simp [NewEGAwsClient, verifyAndBuild, hl, harn, ha, hv], ?_,
                  by simp [NewEGAwsClient, verifyAndBuild, hl, harn, ha, hv], ?_⟩
                · simp only [NewEGAwsClient, verifyAndBuild, hl, harn, if_neg, ha, hv]
                  exact ⟨[], rfl⟩
                · intro _ _ h3
                  obtain ⟨e3, he3⟩ := h3
                    { opts := buildConfigOpts args,
                      credentials := CredSource.assumedCache src }
                  rw [hv] at he3
                  cases he3

/-- Witness for C2: with a collaborator failing only on `GetCallerIdentity`
and role assumption succeeding, bootstrap stops at verify with a wrapped
error and an incomplete trace. -/
theorem bootstrap_stage_order_witness :
    (∃ e, (NewEGAwsClient testEnvVerifyFail testArgsAssume).result =
      Except.error (EGError.wrap "failed to get caller identity" e))
    ∧ (NewEGAwsClient testEnvVerifyFail testArgsAssume).trace =
        [Stage.resolve, Stage.provision, Stage.verify] :=
  (bootstrap_stage_order testEnvVerifyFail testArgsAssume).2.2.2 rfl
    (fun _ _ => ⟨testSrc, rfl⟩) (fun _ => ⟨EGError.new "access denied", rfl⟩)

/-- C5: with an empty `AssumeRoleArn` no role-assumption exchange is issued
and a returned Client Handle carries exactly the configuration produced by
resolution — its credential source is the ambient default chain, not
replaced — with the STS client bound to that same configuration. -/
theorem no_assume_role_uses_resolved_config (env : AwsEnv) (args : NewEGAwsClientArgs)
    (h : args.assumeRoleArn = "") :
    (NewEGAwsClient env args).exchanges = 0
    ∧ ∀ c, (NewEGAwsClient env args).result = Except.ok c →
        c.cfg = { opts := buildConfigOpts args, credentials := CredSource.ambient }
        ∧ c.stsClient = c.cfg
        ∧ c.secretsClient = c.cfg
        ∧ c.cfg.credentials = CredSource.ambient := by
  cases hl : env.loadDefaultConfig (buildConfigOpts args) with
  | some e => simp [NewEGAwsClient, hl]
  | none =>
      cases hv : env.getCallerIdentity
          { opts := buildConfigOpts args, credentials := CredSource.ambient } with
      | error e2 => simp [NewEGAwsClient, verifyAndBuild, hl, h, hv]
      | ok id =>
          refine ⟨by simp [NewEGAwsClient, verifyAndBuild, hl, h, hv], ?_⟩
          intro c hc
          simp [NewEGAwsClient, verifyAndBuild, hl, h, hv] at hc
          subst hc
          simp

/-- Witness for C5 in the all-success environment. -/
theorem no_assume_role_uses_resolved_config_witness :
    (NewEGAwsClient testEnvOk testArgs).exchanges = 0
    ∧ testClient.cfg.credentials = CredSource.ambient :=
  ⟨(no_assume_role_uses_resolved_config testEnvOk testArgs rfl).1,
   ((no_assume_role_uses_resolved_config testEnvOk testArgs rfl).2 testClient rfl).2.2.2⟩

/-- Helper for C1: a credentials cache whose captured assume-role response
has all four fields, and whose cached slot is empty or already holds the
closure's values, answers every request with those same values and issues no
role-assumption exchange. -/
theorem retrieveTimes_const (ak sk st : String) (exp : Nat) :
    ∀ (ts : List Nat) (c : CredentialsCache),
      c.source = { accessKeyId := some ak, secretAccessKey := some sk
                   sessionToken := some st, expiration := some exp } →
      (c.cached = none ∨ c.cached = some (closureCredentials ak sk st exp)) →
      c.retrieveTimes ts =
        (ts.map (fun _ => some (Except.ok (closureCredentials ak sk st exp))), 0) := by
  intro ts
  induction ts with
  | nil =>
      intro c _ _
      simp [CredentialsCache.retrieveTimes]
  | cons t ts ih =>
      intro c hsrc hc
      rcases hc with hc | hc
      · have hr : c.retrieve t =
            (some (Except.ok (closureCredentials ak sk st exp)),
              { c with cached := some (closureCredentials ak sk st exp) }, 0) := by
          simp [CredentialsCache.retrieve, hc, CredentialsCache.refresh, hsrc,
            credentialsProviderFunc, closureCredentials]
        have hrec := ih { c with cached := some (closureCredentials ak sk st exp) }
          (by simpa using hsrc) (Or.inr rfl)
        simp [CredentialsCache.retrieveTimes, hr, hrec]
      · have hexp : (closureCredentials ak sk st exp).expired t = false := by
          simp [Credentials.expired, closureCredentials]
        have hr : c.retrieve t =
            (some (Except.ok (closureCredentials ak sk st exp)), c, 0) := by
          simp [CredentialsCache.retrieve, hc, hexp]
        have hrec := ih c hsrc (Or.inr hc)
        simp [CredentialsCache.retrieveTimes, hr, hrec]

/-- C1: after a successful role assumption, bootstrap issues exactly one
role-assumption exchange, installs the credentials cache over that one
response, and every subsequent credential request against the cache — at any
time — returns the same four credential values, issuing no further exchange
with the identity service. -/
theorem assume_role_single_exchange_stable_cache
    (env : AwsEnv) (args : NewEGAwsClientArgs) (ak sk st : String) (exp : Nat)
    (harn : ¬ args.assumeRoleArn = "")
    (hload : env.loadDefaultConfig (buildConfigOpts args) = none)
    (hassume : env.assumeRole
        { opts := buildConfigOpts args, credentials := CredSource.ambient }
        args.assumeRoleArn =
      Except.ok { accessKeyId := some ak, secretAccessKey := some sk
                  sessionToken := some st, expiration := some exp }) :
    (NewEGAwsClient env args).exchanges = 1
    ∧ (∀ c, (NewEGAwsClient env args).result = Except.ok c →
        c.cfg.credentials = CredSource.assumedCache
          { accessKeyId := some ak, secretAccessKey := some sk
            sessionToken := some st, expiration := some exp })
    ∧ (∀ ts, (CredentialsCache.init
          { accessKeyId := some ak, secretAccessKey := some sk
            sessionToken := some st, expiration := some exp }).retrieveTimes ts =
        (ts.map (fun _ => some (Except.ok (closureCredentials ak sk st exp))), 0)) := by
  refine ⟨?_, ?_, fun ts =>
    retrieveTimes_const ak sk st exp ts _ rfl (Or.inl rfl)⟩
  · cases hv : env.getCallerIdentity
        { opts := buildConfigOpts args,
          credentials := CredSource.assumedCache
            { accessKeyId := some ak, secretAccessKey := some sk
              sessionToken := some st, expiration := some exp } } <;>
      simp [NewEGAwsClient, verifyAndBuild, hload, harn, hassume, hv]
  · intro c hc
    cases hv : env.getCallerIdentity
        { opts := buildConfigOpts args,
          credentials := CredSource.assumedCache
            { accessKeyId := some ak, secretAccessKey := some sk
              sessionToken := some st, expiration := some exp } } with
    | error e =>
        simp [NewEGAwsClient, verifyAndBuild, hload, harn, hassume, hv] at hc
    | ok id =>
        simp [NewEGAwsClient, verifyAndBuild, hload, harn, hassume, hv] at hc
        subst hc
        simp

/-- Witness for C1 in the all-success environment: one exchange at
bootstrap, and four credential requests (including past the expiry time 100)
all return the same values with zero further exchanges. -/
theorem assume_role_single_exchange_stable_cache_witness :
    (NewEGAwsClient testEnvOk testArgsAssume).exchanges = 1
    ∧ (CredentialsCache.init testSrc).retrieveTimes [0, 50, 99, 1000] =
        ([some (Except.ok testCreds), some (Except.ok testCreds),
          some (Except.ok testCreds), some (Except.ok testCreds)], 0) :=
  ⟨(assume_role_single_exchange_stable_cache testEnvOk testArgsAssume
      "AKID" "SECRET" "TOKEN" 100 (by decide) rfl rfl).1,
   (assume_role_single_exchange_stable_cache testEnvOk testArgsAssume
      "AKID" "SECRET" "TOKEN" 100 (by decide) rfl rfl).2.2 [0, 50, 99, 1000]⟩

/-- Counterexample to C7 as stated: for a secret record with both payload
fields absent, `GetLatestJsonSecretValue` returns the freshly created error
`secret found but value is empty`, which is not a wrap of any stage
description around an underlying cause. -/
theorem error_wrapping_counterexample :
    (GetLatestJsonSecretValue
        (Except.ok { secretString := none, secretBinary := none }) Json.null).1 =
      Except.error (EGError.new "secret found but value is empty")
    ∧ ¬ ∃ msg cause,
        EGError.new "secret found but value is empty" = EGError.wrap msg cause :=
  ⟨rfl, fun h => match h with | ⟨_, _, hh⟩ => EGError.noConfusion hh⟩

/-- C7 (amended): every error returned by bootstrap or by the secret
accessor is either one of the five stage-description wraps around the
original cause, or exactly the originating `secret found but value is
empty` error (created fresh, with no underlying cause); a failing
collaborator's error is propagated as the wrapped cause, never swallowed or
replaced by a default. -/
theorem error_wrapping_amended (env : AwsEnv) (args : NewEGAwsClientArgs)
    (resp : Except EGError GetSecretValueOutput) (dest : Json) :
    (∀ err, (NewEGAwsClient env args).result = Except.error err →
      ∃ msg cause, err = EGError.wrap msg cause ∧
        (msg = "failed to load AWS config" ∨ msg = "failed to assume role" ∨
          msg = "failed to get caller identity"))
    ∧ (∀ err, (GetLatestJsonSecretValue resp dest).1 = Except.error err →
      (∃ msg cause, err = EGError.wrap msg cause ∧
        (msg = "failed to get secret value" ∨ msg = "failed to unmarshal byte value"))
      ∨ err = EGError.new "secret found but value is empty")
    ∧ (∀ e, env.loadDefaultConfig (buildConfigOpts args) = some e →
        (NewEGAwsClient env args).result =
          Except.error (EGError.wrap "failed to load AWS config" e))
    ∧ (∀ e, resp = Except.error e →
        (GetLatestJsonSecretValue resp dest).1 =
          Except.error (EGError.wrap "failed to get secret value" e)) := by
  refine ⟨?_, ?_, ?_, ?_⟩
  · intro err herr
    cases hl : env.loadDefaultConfig (buildConfigOpts args) with
    | some e =>
        simp [NewEGAwsClient, hl] at herr
        exact ⟨_, _, herr.symm, Or.inl rfl⟩
    | none =>
        by_cases harn : args.assumeRoleArn = ""
        · cases hv : env.getCallerIdentity
              { opts := buildConfigOpts args, credentials := CredSource.ambient } with
          | error e2 =>
              simp [NewEGAwsClient, verifyAndBuild, hl, harn, hv] at herr
              exact ⟨_, _, herr.symm, Or.inr (Or.inr rfl)⟩
          | ok id =>
              simp [NewEGAwsClient, verifyAndBuild, hl, harn, hv] at herr
        · cases ha : env.assumeRole
              { opts := buildConfigOpts args, credentials := CredSource.ambient }
              args.assumeRoleArn with
          | error e2 =>
              simp [NewEGAwsClient, hl, harn, ha] at herr
              exact ⟨_, _, herr.symm, Or.inr (Or.inl rfl)⟩
          | ok src =>
              cases hv : env.getCallerIdentity
                  { opts := buildConfigOpts args,
                    credentials := CredSource.assumedCache src } with
              | error e2 =>
                  simp [NewEGAwsClient, verifyAndBuild, hl, harn, ha, hv] at herr
                  exact ⟨_, _, herr.symm, Or.inr (Or.inr rfl)⟩
              | ok id =>
                  simp [NewEGAwsClient, verifyAndBuild, hl, harn, ha, hv] at herr
  · intro err herr
    cases resp with
    | error e =>
        simp [GetLatestJsonSecretValue] at herr
        exact Or.inl ⟨_, _, herr.symm, Or.inl rfl⟩
    | ok output =>
        obtain ⟨ss, sb⟩ := output
        cases ss with
        | some s =>
            cases hj : jsonUnmarshal s with
            | none =>
                simp [GetLatestJsonSecretValue, decodeByteValue, hj] at herr
                exact Or.inl ⟨_, _, herr.symm, Or.inr rfl⟩
            | some v =>
                simp [GetLatestJsonSecretValue, decodeByteValue, hj] at herr
        | none =>
            cases sb with
            | some b =>
                cases hj : jsonUnmarshal b with
                | none =>
                    simp [GetLatestJsonSecretValue, decodeByteValue, hj] at herr
                    exact Or.inl ⟨_, _, herr.symm, Or.inr rfl⟩
                | some v =>
                    simp [GetLatestJsonSecretValue, decodeByteValue, hj] at herr
            | none =>
                simp [GetLatestJsonSecretValue] at herr
                exact Or.inr herr.symm
  · intro e he
    simp [NewEGAwsClient, he]
  · intro e he
    subst he
    simp [GetLatestJsonSecretValue]

/-- Witness for C7 (amended): the wrapped configuration-loading failure of a
concrete environment matches the amended error taxonomy. -/
theorem error_wrapping_amended_witness :
    ∃ msg cause,
      EGError.wrap "failed to load AWS config" (EGError.new "no credential source") =
        EGError.wrap msg cause ∧
      (msg = "failed to load AWS config" ∨ msg = "failed to assume role" ∨
        msg = "failed to get caller identity") :=
  (error_wrapping_amended testEnvLoadFail testArgs
      (Except.ok { secretString := none, secretBinary := none }) Json.null).1
    (EGError.wrap "failed to load AWS config" (EGError.new "no credential source")) rfl

end EGAws
